import Mathlib

/-!
# include/aio.h (NuttX asynchronous I/O): constants, configuration logic, control block

The header is embedded as

* the numeric constants of its `#define` lines,
* a function from the preprocessor symbols defined at the point of inclusion to
  either the `#error` raised or the list of declarations the header exposes,
* the control block `struct aiocb`, as a list of members and as a record.

The header declares `aio_cancel` and `lio_listio` without their bodies, and takes
`off_t` from `<sys/types.h>`. What the statements about them need is modelled from
the specification; each such definition says so in its comment.
-/

namespace Aio

/-! ## Standard definitions (aio.h lines 96-122) -/

/-- Line 96: `#define AIO_CANCELED 0`. -/
def AIO_CANCELED : Int := 0
/-- Line 97: `#define AIO_ALLDONE 1`. -/
def AIO_ALLDONE : Int := 1
/-- Line 98: `#define AIO_NOTCANCELED 2`. -/
def AIO_NOTCANCELED : Int := 2

/-- Line 107: `#define LIO_NOP 0`. -/
def LIO_NOP : Int := 0
/-- Line 108: `#define LIO_READ 1`. -/
def LIO_READ : Int := 1
/-- Line 109: `#define LIO_WRITE 2`. -/
def LIO_WRITE : Int := 2

/-- Line 121: `#define LIO_NOWAIT 0`. -/
def LIO_NOWAIT : Int := 0
/-- Line 122: `#define LIO_WAIT 1`. -/
def LIO_WAIT : Int := 1

/-- The three outcomes `aio_cancel` reports (comment at lines 86-94). -/
inductive CancelOutcome where
  | Canceled
  | AllDone
  | NotCanceled
  deriving DecidableEq, Repr

/-- The return value that stands for each outcome (lines 96-98). -/
def CancelOutcome.code : CancelOutcome → Int
  | .Canceled => AIO_CANCELED
  | .AllDone => AIO_ALLDONE
  | .NotCanceled => AIO_NOTCANCELED

/-- The two `lio_listio` modes (comment at lines 111-119). -/
inductive ListioMode where
  | nowait
  | wait
  deriving DecidableEq, Repr

/-- The `mode` argument that stands for each mode (lines 121-122). -/
def ListioMode.code : ListioMode → Int
  | .nowait => LIO_NOWAIT
  | .wait => LIO_WAIT

/-- The element operations of `lio_listio` (comment at lines 100-105). -/
inductive OperationKind where
  | nop
  | read
  | write
  deriving DecidableEq, Repr

/-- The `aio_lio_opcode` value that selects each operation (lines 107-109). -/
def OperationKind.opcode : OperationKind → Int
  | .nop => LIO_NOP
  | .read => LIO_READ
  | .write => LIO_WRITE

/-- An `aio_lio_opcode` value is a valid operation kind when it is one of the
three opcodes the header defines. -/
def isOperationKind (op : Int) : Bool :=
  op == LIO_NOP || op == LIO_READ || op == LIO_WRITE

/-! ## Declarations the header can expose -/

/-- One member of a struct: its C type and its name. -/
structure Field where
  ctype : String
  name : String
  deriving DecidableEq, Repr

/-- What a header line declares. -/
inductive Decl where
  | define (name : String) (value : Option Int)
  | struct (name : String) (fields : List Field)
  | proto (ret : String) (name : String) (params : List String)
  deriving DecidableEq, Repr

/-- Name of a declaration. -/
def Decl.name : Decl → String
  | .define n _ => n
  | .struct n _ => n
  | .proto _ n _ => n

/-- Whether the declaration is a function prototype. -/
def Decl.isProto : Decl → Bool
  | .proto _ _ _ => true
  | _ => false

/-- Lines 96-122: the eight constants. -/
def standardDefinitions : List Decl :=
  [ .define "AIO_CANCELED" (some AIO_CANCELED),
    .define "AIO_ALLDONE" (some AIO_ALLDONE),
    .define "AIO_NOTCANCELED" (some AIO_NOTCANCELED),
    .define "LIO_NOP" (some LIO_NOP),
    .define "LIO_READ" (some LIO_READ),
    .define "LIO_WRITE" (some LIO_WRITE),
    .define "LIO_NOWAIT" (some LIO_NOWAIT),
    .define "LIO_WAIT" (some LIO_WAIT) ]

/-- Lines 128-145: the members of `struct aiocb`, in declaration order. -/
def aiocb_fields : List Field :=
  [ ⟨"struct sigevent", "aio_sigevent"⟩,
    ⟨"FAR volatile void *", "aio_buf"⟩,
    ⟨"off_t", "aio_offset"⟩,
    ⟨"size_t", "aio_nbytes"⟩,
    ⟨"int", "aio_fildes"⟩,
    ⟨"int", "aio_reqprio"⟩,
    ⟨"int", "aio_lio_opcode"⟩,
    ⟨"struct work_s", "aio_work"⟩,
    ⟨"pid_t", "aio_pid"⟩,
    ⟨"volatile ssize_t", "aio_result"⟩ ]

/-- Lines 128-145: the type definition. -/
def typeDefinitions : List Decl :=
  [ .struct "aiocb" aiocb_fields ]

/-- The preprocessor symbols the header tests, as defined (true) or not (false)
when the header is included, after `<nuttx/config.h>` and the other includes of
lines 43-49. -/
structure Config where
  CONFIG_LIBC_AIO : Bool
  CONFIG_BUILD_PROTECTED : Bool
  CONFIG_BUILD_KERNEL : Bool
  __KERNEL__ : Bool
  CONFIG_SCHED_WORKQUEUE : Bool
  CONFIG_SCHED_USRWORK : Bool
  CONFIG_SCHED_LPWORK : Bool
  CONFIG_PTHREAD_DISABLE : Bool
  __cplusplus : Bool
  deriving DecidableEq, Repr

/-- Lines 163-175: the prototypes; `lio_listio` stands under
`#ifndef CONFIG_PTHREAD_DISABLE`. -/
def prototypes (c : Config) : List Decl :=
  [ .proto "int" "aio_cancel" ["int", "FAR struct aiocb *"],
    .proto "int" "aio_error" ["FAR const struct aiocb *"],
    .proto "int" "aio_fsync" ["int", "FAR struct aiocb *"],
    .proto "int" "aio_read" ["FAR struct aiocb *"],
    .proto "ssize_t" "aio_return" ["FAR struct aiocb *"],
    .proto "int" "aio_suspend"
      ["FAR const struct aiocb *const []", "int", "FAR const struct timespec *"],
    .proto "int" "aio_write" ["FAR struct aiocb *"] ] ++
  (if c.CONFIG_PTHREAD_DISABLE then []
   else [ .proto "int" "lio_listio"
            ["int", "FAR struct aiocb *const []", "int", "FAR struct sigevent *"] ])

/-- Lines 57-59: in a protected or kernel build, kernel code gets
`CONFIG_LIBC_AIO` undefined. -/
def kernelExclusion (c : Config) : Config :=
  if (c.CONFIG_BUILD_PROTECTED || c.CONFIG_BUILD_KERNEL) && c.__KERNEL__ then
    { c with CONFIG_LIBC_AIO := false }
  else c

/-- Lines 71-83: the work queue prerequisites, with the text of the `#error`
that is raised. -/
def prerequisites (c : Config) : Except String Unit :=
  if !c.CONFIG_SCHED_WORKQUEUE then
    .error "Asynchronous I/O requires CONFIG_SCHED_WORKQUEUE"
  else if c.CONFIG_BUILD_PROTECTED || c.CONFIG_BUILD_KERNEL then
    if !c.CONFIG_SCHED_USRWORK then
      .error "User-space asynchronous I/O requires CONFIG_SCHED_USRWORK"
    else .ok ()
  else
    if !c.CONFIG_SCHED_LPWORK then
      .error "Flat-build asynchronous I/O requires CONFIG_SCHED_LPWORK"
    else .ok ()

/-- Line 37: the include guard, which every inclusion leaves behind. -/
def includeGuard : Decl :=
  .define "__INCLUDE_AIO_H" none

/-- Lines 36-183: the header on its first inclusion. The include guard is
always defined; everything else stands under `#ifdef CONFIG_LIBC_AIO` (line 69 to
line 182). `EXTERN` is defined at line 152 or 156 and undefined again at line
177, so it is not among the declarations left behind. -/
def aio_h (c : Config) : Except String (List Decl) :=
  let c1 := kernelExclusion c
  if c1.CONFIG_LIBC_AIO then
    match prerequisites c1 with
    | .error e => .error e
    | .ok () =>
      .ok (includeGuard ::
            (standardDefinitions ++ typeDefinitions ++ prototypes c1))
  else
    .ok [includeGuard]

/-- The header compiles: no `#error` is raised. -/
def accepted (c : Config) : Bool :=
  match aio_h c with
  | .ok _ => true
  | .error _ => false

/-- The header compiles and declares the function `f`. -/
def declares (c : Config) (f : String) : Bool :=
  match aio_h c with
  | .ok ds => ds.any (fun d => d.isProto && d.name == f)
  | .error _ => false

/-- The header compiles and exposes something named `n` (a constant, a type or
a prototype). -/
def exposes (c : Config) (n : String) : Bool :=
  match aio_h c with
  | .ok ds => ds.any (fun d => d.name == n)
  | .error _ => false

/-- `CONFIG_LIBC_AIO` is still defined at line 69. -/
def aioEnabled (c : Config) : Bool :=
  Config.CONFIG_LIBC_AIO (kernelExclusion c)

/-- The names the header can expose besides its include guard: the eight
constants, the control block type and the eight prototypes. -/
def aioNames : List String :=
  [ "AIO_CANCELED", "AIO_ALLDONE", "AIO_NOTCANCELED", "LIO_NOP", "LIO_READ",
    "LIO_WRITE", "LIO_NOWAIT", "LIO_WAIT", "aiocb",
    "aio_cancel", "aio_error", "aio_fsync", "aio_read", "aio_return",
    "aio_suspend", "aio_write", "lio_listio" ]

/-- The eight operations of the public surface. -/
def publicOperations : List String :=
  [ "aio_read", "aio_write", "aio_fsync", "aio_error", "aio_return",
    "aio_cancel", "lio_listio", "aio_suspend" ]

/-! ## The control block as a record -/

/-- Lines 128-145: `struct aiocb`. `struct sigevent` (from `<signal.h>`) and
`struct work_s` (from `<nuttx/wqueue.h>`) are declared outside this header and
stay parameters; pointers are addresses, the integer members hold the value
stored in them. -/
structure aiocb (Sigevent Work : Type) where
  aio_sigevent : Sigevent
  aio_buf : Nat
  aio_offset : Int
  aio_nbytes : Nat
  aio_fildes : Int
  aio_reqprio : Int
  aio_lio_opcode : Int
  aio_work : Work
  aio_pid : Int
  aio_result : Int

/-- Modelled from the spec: `off_t`, the type of `aio_offset` (line 134), is
declared in `<sys/types.h>`, which is not among the sources; the data model gives
`file_offset` as a signed 64-bit byte offset. -/
def OFF_T_BITS : Nat := 64

/-- Conversion of an integer to a two's complement signed type of `bits` bits,
as a C assignment to a member of that type performs it. -/
def toSigned (bits : Nat) (v : Int) : Int :=
  (v + 2 ^ (bits - 1)) % 2 ^ bits - 2 ^ (bits - 1)

/-- The assignment `aiocbp->aio_offset = v`. -/
def aiocb.store_aio_offset {Sigevent Work : Type} (cb : aiocb Sigevent Work) (v : Int) :
    aiocb Sigevent Work :=
  { cb with aio_offset := toSigned OFF_T_BITS v }

/-- The ten attributes of the control block in the data model. -/
inductive Attribute where
  | notify_target
  | buffer
  | file_offset
  | byte_count
  | descriptor
  | priority_adjustment
  | operation_kind
  | deferred_work_handle
  | requester_identity
  | result
  deriving DecidableEq, Repr

/-- Every attribute, in the order of the data model. -/
def Attribute.all : List Attribute :=
  [ .notify_target, .buffer, .file_offset, .byte_count, .descriptor,
    .priority_adjustment, .operation_kind, .deferred_work_handle,
    .requester_identity, .result ]

/-- The member of `struct aiocb` that holds the attribute. -/
def Attribute.member : Attribute → String
  | .notify_target => "aio_sigevent"
  | .buffer => "aio_buf"
  | .file_offset => "aio_offset"
  | .byte_count => "aio_nbytes"
  | .descriptor => "aio_fildes"
  | .priority_adjustment => "aio_reqprio"
  | .operation_kind => "aio_lio_opcode"
  | .deferred_work_handle => "aio_work"
  | .requester_identity => "aio_pid"
  | .result => "aio_result"

/-! ## Cancellation and batch submission

`aio_cancel` and `lio_listio` are declared by the header (lines 163 and
173-174); their bodies are not among the sources. -/

/-- A flat build of application code with asynchronous I/O enabled, its work
queue prerequisites met, and pthreads disabled. -/
def flatNoPthread : Config :=
  { CONFIG_LIBC_AIO := true, CONFIG_BUILD_PROTECTED := false,
    CONFIG_BUILD_KERNEL := false, __KERNEL__ := false,
    CONFIG_SCHED_WORKQUEUE := true, CONFIG_SCHED_USRWORK := false,
    CONFIG_SCHED_LPWORK := true, CONFIG_PTHREAD_DISABLE := true,
    __cplusplus := false }

/-- A flat build of application code with asynchronous I/O enabled, its work
queue prerequisites met, and pthreads available. -/
def flatUser : Config :=
  { CONFIG_LIBC_AIO := true, CONFIG_BUILD_PROTECTED := false,
    CONFIG_BUILD_KERNEL := false, __KERNEL__ := false,
    CONFIG_SCHED_WORKQUEUE := true, CONFIG_SCHED_USRWORK := false,
    CONFIG_SCHED_LPWORK := true, CONFIG_PTHREAD_DISABLE := false,
    __cplusplus := false }

/-- A flat build of application code with `CONFIG_LIBC_AIO` set and no work
queue support. -/
def flatUserNoWorkQueue : Config :=
  { CONFIG_LIBC_AIO := true, CONFIG_BUILD_PROTECTED := false,
    CONFIG_BUILD_KERNEL := false, __KERNEL__ := false,
    CONFIG_SCHED_WORKQUEUE := false, CONFIG_SCHED_USRWORK := false,
    CONFIG_SCHED_LPWORK := false, CONFIG_PTHREAD_DISABLE := false,
    __cplusplus := false }

/-- Kernel code of a protected build with `CONFIG_LIBC_AIO` set and no work
queue support at all. -/
def protectedKernelCode : Config :=
  { CONFIG_LIBC_AIO := true, CONFIG_BUILD_PROTECTED := true,
    CONFIG_BUILD_KERNEL := false, __KERNEL__ := true,
    CONFIG_SCHED_WORKQUEUE := false, CONFIG_SCHED_USRWORK := false,
    CONFIG_SCHED_LPWORK := false, CONFIG_PTHREAD_DISABLE := false,
    __cplusplus := false }

/-- Kernel code of a kernel build with `CONFIG_LIBC_AIO` set and the work queues
configured. -/
def kernelBuildKernelCode : Config :=
  { CONFIG_LIBC_AIO := true, CONFIG_BUILD_PROTECTED := false,
    CONFIG_BUILD_KERNEL := true, __KERNEL__ := true,
    CONFIG_SCHED_WORKQUEUE := true, CONFIG_SCHED_USRWORK := true,
    CONFIG_SCHED_LPWORK := false, CONFIG_PTHREAD_DISABLE := false,
    __cplusplus := false }

/-- Application code of a protected build with asynchronous I/O enabled and the
user-space work queue present. -/
def protectedUser : Config :=
  { CONFIG_LIBC_AIO := true, CONFIG_BUILD_PROTECTED := true,
    CONFIG_BUILD_KERNEL := false, __KERNEL__ := false,
    CONFIG_SCHED_WORKQUEUE := true, CONFIG_SCHED_USRWORK := true,
    CONFIG_SCHED_LPWORK := false, CONFIG_PTHREAD_DISABLE := false,
    __cplusplus := false }

/-- Application code of a protected build with `CONFIG_LIBC_AIO` set and the work
queue configured without its user-space part. -/
def protectedUserNoUsrWork : Config :=
  { CONFIG_LIBC_AIO := true, CONFIG_BUILD_PROTECTED := true,
    CONFIG_BUILD_KERNEL := false, __KERNEL__ := false,
    CONFIG_SCHED_WORKQUEUE := true, CONFIG_SCHED_USRWORK := false,
    CONFIG_SCHED_LPWORK := true, CONFIG_PTHREAD_DISABLE := false,
    __cplusplus := false }

/-- Kernel code (`__KERNEL__` defined) of a flat build with asynchronous I/O
enabled and its work queue prerequisites met. -/
def flatKernelCode : Config :=
  { CONFIG_LIBC_AIO := true, CONFIG_BUILD_PROTECTED := false,
    CONFIG_BUILD_KERNEL := false, __KERNEL__ := true,
    CONFIG_SCHED_WORKQUEUE := true, CONFIG_SCHED_USRWORK := false,
    CONFIG_SCHED_LPWORK := true, CONFIG_PTHREAD_DISABLE := false,
    __cplusplus := false }

/-- Kernel code of a flat build with `CONFIG_LIBC_AIO` set and no work queue
support. -/
def flatKernelCodeNoWorkQueue : Config :=
  { CONFIG_LIBC_AIO := true, CONFIG_BUILD_PROTECTED := false,
    CONFIG_BUILD_KERNEL := false, __KERNEL__ := true,
    CONFIG_SCHED_WORKQUEUE := false, CONFIG_SCHED_USRWORK := false,
    CONFIG_SCHED_LPWORK := false, CONFIG_PTHREAD_DISABLE := false,
    __cplusplus := false }

/-- A control block with every member zero. -/
def demoCb : aiocb Unit Unit :=
  { aio_sigevent := (), aio_buf := 0, aio_offset := 0, aio_nbytes := 0, aio_fildes := 0,
    aio_reqprio := 0, aio_lio_opcode := 0, aio_work := (), aio_pid := 0, aio_result := 0 }

/-! ## Theorems: the constants -/

/-- C1: the three outcomes of `aio_cancel` are encoded Canceled = 0, AllDone = 1,
NotCanceled = 2 by the header's defines; the three codes are pairwise distinct,
and every code of an outcome belongs to exactly one outcome. -/
theorem cancel_codes_stable :
    Decl.define "AIO_CANCELED" (some 0) ∈ standardDefinitions ∧
    Decl.define "AIO_ALLDONE" (some 1) ∈ standardDefinitions ∧
    Decl.define "AIO_NOTCANCELED" (some 2) ∈ standardDefinitions ∧
    CancelOutcome.Canceled.code = 0 ∧ CancelOutcome.AllDone.code = 1 ∧
    CancelOutcome.NotCanceled.code = 2 ∧
    AIO_CANCELED ≠ AIO_ALLDONE ∧ AIO_CANCELED ≠ AIO_NOTCANCELED ∧
    AIO_ALLDONE ≠ AIO_NOTCANCELED ∧
    (∀ o : CancelOutcome, ∃! o2 : CancelOutcome, o2.code = o.code) := by
  refine ⟨by decide, by decide, by decide, rfl, rfl, rfl, by decide, by decide, by decide, ?_⟩
  intro o
  refine ⟨o, rfl, ?_⟩
  intro o2 h
  cases o <;> cases o2 <;> first | rfl | (exact absurd h (by decide))

/-- C2: the two `lio_listio` modes are encoded no-wait = 0 and wait = 1 by the
header's defines, and the two codes are distinct. -/
theorem listio_mode_codes :
    Decl.define "LIO_NOWAIT" (some 0) ∈ standardDefinitions ∧
    Decl.define "LIO_WAIT" (some 1) ∈ standardDefinitions ∧
    ListioMode.nowait.code = 0 ∧ ListioMode.wait.code = 1 ∧
    LIO_NOWAIT ≠ LIO_WAIT ∧
    (∀ m1 m2 : ListioMode, m1.code = m2.code → m1 = m2) := by
  refine ⟨by decide, by decide, rfl, rfl, by decide, ?_⟩
  intro m1 m2 h
  cases m1 <;> cases m2 <;> first | rfl | (exact absurd h (by decide))

/-- C3: the operation kinds `aio_lio_opcode` selects are no-op = 0, read = 1 and
write = 2, with pairwise distinct codes; an integer is a valid operation kind
exactly when it is 0, 1 or 2, and a valid opcode names exactly one kind. -/
theorem operation_kinds_exact :
    Decl.define "LIO_NOP" (some 0) ∈ standardDefinitions ∧
    Decl.define "LIO_READ" (some 1) ∈ standardDefinitions ∧
    Decl.define "LIO_WRITE" (some 2) ∈ standardDefinitions ∧
    OperationKind.nop.opcode = 0 ∧ OperationKind.read.opcode = 1 ∧
    OperationKind.write.opcode = 2 ∧
    LIO_NOP ≠ LIO_READ ∧ LIO_NOP ≠ LIO_WRITE ∧ LIO_READ ≠ LIO_WRITE ∧
    (∀ op : Int, isOperationKind op = true ↔ op = 0 ∨ op = 1 ∨ op = 2) ∧
    (∀ op : Int, isOperationKind op = true ↔ ∃ k : OperationKind, k.opcode = op) ∧
    (∀ op : Int, isOperationKind op = true → ∃! k : OperationKind, k.opcode = op) := by
  have hval : ∀ op : Int, isOperationKind op = true ↔ op = 0 ∨ op = 1 ∨ op = 2 := by
    intro op
    simp [isOperationKind, LIO_NOP, LIO_READ, LIO_WRITE, or_assoc]
  have hinj : ∀ k1 k2 : OperationKind, k1.opcode = k2.opcode → k1 = k2 := by
    intro k1 k2 h
    cases k1 <;> cases k2 <;> first | rfl | (exact absurd h (by decide))
  have hex : ∀ op : Int, isOperationKind op = true → ∃ k : OperationKind, k.opcode = op := by
    intro op h
    rcases (hval op).1 h with h0 | h1 | h2
    · exact ⟨.nop, by rw [h0]; rfl⟩
    · exact ⟨.read, by rw [h1]; rfl⟩
    · exact ⟨.write, by rw [h2]; rfl⟩
  refine ⟨by decide, by decide, by decide, rfl, rfl, rfl, by decide, by decide, by decide,
    hval, ?_, ?_⟩
  · intro op
    refine ⟨hex op, ?_⟩
    rintro ⟨k, rfl⟩
    cases k <;> decide
  · intro op h
    obtain ⟨k, hk⟩ := hex op h
    exact ⟨k, hk, fun k2 hk2 => hinj k2 k (hk2.trans hk.symm)⟩

/-! ## Theorems: the control block -/

/-- C5: `struct aiocb` holds exactly one member for each of the ten attributes
of the data model, in the same order, and no other member; `result` is held by
the single member `aio_result`. -/
theorem aiocb_members_are_the_attributes :
    Decl.struct "aiocb" aiocb_fields ∈ typeDefinitions ∧
    aiocb_fields.map Field.name = Attribute.all.map Attribute.member ∧
    (∀ a : Attribute, a ∈ Attribute.all) ∧
    Attribute.all.Nodup ∧
    (aiocb_fields.map Field.name).Nodup ∧
    aiocb_fields.length = 10 ∧
    (∀ a : Attribute, (aiocb_fields.filter (fun f => f.name == a.member)).length = 1) ∧
    (∀ f ∈ aiocb_fields, ∃! a : Attribute, a.member = f.name) ∧
    aiocb_fields.filter (fun f => f.name == Attribute.result.member)
      = [⟨"volatile ssize_t", "aio_result"⟩] := by
  have hinj : ∀ a b : Attribute, a.member = b.member → a = b := by
    intro a b h
    cases a <;> cases b <;> first | rfl | (exact absurd h (by decide))
  refine ⟨by decide, by decide, ?_, by decide, by decide, by decide, ?_, ?_, by decide⟩
  · intro a; cases a <;> decide
  · intro a; cases a <;> decide
  · intro f hf
    have hmem : f.name ∈ Attribute.all.map Attribute.member := by
      have h1 : f.name ∈ aiocb_fields.map Field.name := List.mem_map_of_mem _ hf
      have h2 : aiocb_fields.map Field.name = Attribute.all.map Attribute.member := by decide
      rw [h2] at h1
      exact h1
    obtain ⟨a, _, ha⟩ := List.mem_map.1 hmem
    exact ⟨a, ha, fun b hb => hinj b a (hb.trans ha.symm)⟩

/-- A value survives the conversion to a signed type of `bits` bits exactly when
it lies in the range of that type. -/
theorem toSigned_eq_iff (bits : Nat) (hb : 0 < bits) (v : Int) :
    toSigned bits v = v ↔ (-(2 ^ (bits - 1)) ≤ v ∧ v ≤ 2 ^ (bits - 1) - 1) := by
  have hpow : (2 : Int) ^ bits = 2 * 2 ^ (bits - 1) := by
    obtain ⟨k, rfl⟩ : ∃ k, bits = k + 1 := ⟨bits - 1, by omega⟩
    simp [pow_succ, mul_comm]
  have hpos : (0 : Int) < 2 ^ (bits - 1) := by positivity
  unfold toSigned
  rw [hpow]
  generalize (2 : Int) ^ (bits - 1) = H at hpos
  constructor
  · intro h
    have h1 : 0 ≤ (v + H) % (2 * H) := Int.emod_nonneg _ (by omega)
    have h2 : (v + H) % (2 * H) < 2 * H := Int.emod_lt_of_pos _ (by omega)
    omega
  · rintro ⟨h1, h2⟩
    rw [Int.emod_eq_of_lt (by omega) (by omega)]
    omega

/-- C9: `aio_offset` is a signed 64-bit byte offset: an integer stored in the
member is read back unchanged exactly when it lies in -2^63 .. 2^63-1, so every
integer of that range survives the round trip. -/
theorem aio_offset_roundtrip {Sigevent Work : Type} (cb : aiocb Sigevent Work) (v : Int) :
    (cb.store_aio_offset v).aio_offset = v ↔ (-(2 ^ 63) ≤ v ∧ v ≤ 2 ^ 63 - 1) := by
  have h := toSigned_eq_iff OFF_T_BITS (by decide) v
  simpa [aiocb.store_aio_offset, OFF_T_BITS] using h

/-- C9 at concrete values: the largest and the smallest 64-bit offsets are read
back unchanged, and 2^63, which is out of range, is not. -/
theorem aio_offset_roundtrip_witness :
    (demoCb.store_aio_offset (2 ^ 63 - 1)).aio_offset = 2 ^ 63 - 1 ∧
    (demoCb.store_aio_offset (-(2 ^ 63))).aio_offset = -(2 ^ 63) ∧
    (demoCb.store_aio_offset (2 ^ 63)).aio_offset ≠ 2 ^ 63 :=
  ⟨(aio_offset_roundtrip demoCb (2 ^ 63 - 1)).2 (by decide),
   (aio_offset_roundtrip demoCb (-(2 ^ 63))).2 (by decide),
   fun h => absurd ((aio_offset_roundtrip demoCb (2 ^ 63)).1 h) (by decide)⟩

/-! ## Theorems: the configuration logic -/

/-- What the header leaves behind when asynchronous I/O is compiled in and the
prerequisites are met. -/
theorem aio_h_enabled (c : Config) (h1 : aioEnabled c = true)
    (h2 : prerequisites (kernelExclusion c) = .ok ()) :
    aio_h c = .ok (includeGuard ::
      (standardDefinitions ++ typeDefinitions ++ prototypes (kernelExclusion c))) := by
  unfold aioEnabled at h1
  simp [aio_h, h1, h2, includeGuard]

/-- What the header leaves behind when `CONFIG_LIBC_AIO` is not defined at line
69: the include guard alone. -/
theorem aio_h_disabled (c : Config) (h1 : aioEnabled c = false) :
    aio_h c = .ok [includeGuard] := by
  unfold aioEnabled at h1
  simp [aio_h, h1, includeGuard]

/-- Line 69 sees `CONFIG_LIBC_AIO` exactly when the configuration sets it and the
header is not compiled as kernel code of a protected or kernel build. -/
theorem aioEnabled_iff (c : Config) :
    aioEnabled c = true ↔
      ( c.CONFIG_LIBC_AIO = true ∧
        ¬ ((c.CONFIG_BUILD_PROTECTED = true ∨ c.CONFIG_BUILD_KERNEL = true) ∧
            c.__KERNEL__ = true)) := by
  rcases c with ⟨a, p, k, kk, w, u, l, t, x⟩
  cases a <;> cases p <;> cases k <;> cases kk <;> simp [aioEnabled, kernelExclusion]

/-- The header is accepted exactly when line 69 does not see `CONFIG_LIBC_AIO`
or the prerequisite check of lines 71-83 passes. -/
theorem accepted_iff (c : Config) :
    accepted c = true ↔
      (aioEnabled c = false ∨ prerequisites (kernelExclusion c) = .ok ()) := by
  simp only [accepted, aio_h, aioEnabled]
  cases h1 : Config.CONFIG_LIBC_AIO (kernelExclusion c)
  · simp
  · cases h2 : prerequisites (kernelExclusion c) <;> simp

/-- The prerequisite check passes exactly when the work queue is configured
together with the user-space work queue (protected and kernel builds) or the
low-priority work queue (flat build). -/
theorem prerequisites_ok_iff (c : Config) :
    prerequisites c = .ok () ↔
      (c.CONFIG_SCHED_WORKQUEUE = true ∧
        (((c.CONFIG_BUILD_PROTECTED = true ∨ c.CONFIG_BUILD_KERNEL = true) ∧
            c.CONFIG_SCHED_USRWORK = true) ∨
         (¬ (c.CONFIG_BUILD_PROTECTED = true ∨ c.CONFIG_BUILD_KERNEL = true) ∧
            c.CONFIG_SCHED_LPWORK = true))) := by
  rcases c with ⟨a, p, k, kk, w, u, l, t, x⟩
  cases p <;> cases k <;> cases w <;> cases u <;> cases l <;> simp [prerequisites]

/-- The kernel-code exclusion changes no symbol but `CONFIG_LIBC_AIO`. -/
theorem kernelExclusion_frame (c : Config) :
    (kernelExclusion c).CONFIG_BUILD_PROTECTED = c.CONFIG_BUILD_PROTECTED ∧
    (kernelExclusion c).CONFIG_BUILD_KERNEL = c.CONFIG_BUILD_KERNEL ∧
    (kernelExclusion c).CONFIG_SCHED_WORKQUEUE = c.CONFIG_SCHED_WORKQUEUE ∧
    (kernelExclusion c).CONFIG_SCHED_USRWORK = c.CONFIG_SCHED_USRWORK ∧
    (kernelExclusion c).CONFIG_SCHED_LPWORK = c.CONFIG_SCHED_LPWORK ∧
    (kernelExclusion c).CONFIG_PTHREAD_DISABLE = c.CONFIG_PTHREAD_DISABLE := by
  unfold kernelExclusion
  split <;> simp

/-- C6 fails as stated: in a flat build with asynchronous I/O enabled, the work
queue prerequisites met and `CONFIG_PTHREAD_DISABLE` defined, the header is
accepted and declares seven operations, but not `lio_listio`. Besides, with
`CONFIG_LIBC_AIO` set, kernel code of a kernel build gets no prototype at all,
and a flat build without work queue support is rejected. -/
theorem lio_listio_missing_without_pthreads :
    flatNoPthread.CONFIG_LIBC_AIO = true ∧
    accepted flatNoPthread = true ∧
    "lio_listio" ∈ publicOperations ∧
    declares flatNoPthread "lio_listio" = false ∧
    publicOperations.filter (fun f => declares flatNoPthread f) =
      ["aio_read", "aio_write", "aio_fsync", "aio_error", "aio_return", "aio_cancel",
       "aio_suspend"] ∧
    kernelBuildKernelCode.CONFIG_LIBC_AIO = true ∧
    publicOperations.filter (fun f => declares kernelBuildKernelCode f) = [] ∧
    flatUserNoWorkQueue.CONFIG_LIBC_AIO = true ∧
    accepted flatUserNoWorkQueue = false := by
  decide

/-- C6, amended: whenever `CONFIG_LIBC_AIO` is set, the header is not compiled as
kernel code of a protected or kernel build, and the header is accepted, it
declares `aio_read`, `aio_write`, `aio_fsync`, `aio_error`, `aio_return`,
`aio_cancel` and `aio_suspend`; it declares `lio_listio` exactly when
`CONFIG_PTHREAD_DISABLE` is not defined. -/
theorem public_operations_declared (c : Config)
    (hcfg : c.CONFIG_LIBC_AIO = true)
    (huser : ¬ ((c.CONFIG_BUILD_PROTECTED = true ∨ c.CONFIG_BUILD_KERNEL = true) ∧
                c.__KERNEL__ = true))
    (hacc : accepted c = true) :
    (∀ f ∈ ["aio_read", "aio_write", "aio_fsync", "aio_error", "aio_return",
            "aio_cancel", "aio_suspend"], declares c f = true) ∧
    (declares c "lio_listio" = true ↔ c.CONFIG_PTHREAD_DISABLE = false) := by
  have hen : aioEnabled c = true := (aioEnabled_iff c).2 ⟨hcfg, huser⟩
  have hpre : prerequisites (kernelExclusion c) = .ok () := by
    rcases (accepted_iff c).1 hacc with h | h
    · rw [hen] at h; exact absurd h (by decide)
    · exact h
  have hh := aio_h_enabled c hen hpre
  have ht : (kernelExclusion c).CONFIG_PTHREAD_DISABLE = c.CONFIG_PTHREAD_DISABLE :=
    (kernelExclusion_frame c).2.2.2.2.2
  unfold declares
  rw [hh]
  unfold prototypes
  rw [ht]
  cases c.CONFIG_PTHREAD_DISABLE <;> decide

/-- The amended C6 at a concrete configuration: application code of a flat build
with pthreads available gets all eight prototypes. -/
theorem public_operations_declared_witness :
    (∀ f ∈ ["aio_read", "aio_write", "aio_fsync", "aio_error", "aio_return",
            "aio_cancel", "aio_suspend"], declares flatUser f = true) ∧
    (declares flatUser "lio_listio" = true ↔ flatUser.CONFIG_PTHREAD_DISABLE = false) :=
  public_operations_declared flatUser (by decide) (by decide) (by decide)

/-- C7 fails as stated: kernel code of a protected build with `CONFIG_LIBC_AIO`
set and no work queue support at all is accepted, since line 58 undefines
`CONFIG_LIBC_AIO` before the prerequisite check. -/
theorem kernel_code_skips_prerequisites :
    protectedKernelCode.CONFIG_LIBC_AIO = true ∧
    accepted protectedKernelCode = true ∧
    protectedKernelCode.CONFIG_SCHED_WORKQUEUE = false ∧
    ¬ (protectedKernelCode.CONFIG_SCHED_WORKQUEUE = true ∧
        (((protectedKernelCode.CONFIG_BUILD_PROTECTED = true ∨
            protectedKernelCode.CONFIG_BUILD_KERNEL = true) ∧
            protectedKernelCode.CONFIG_SCHED_USRWORK = true) ∨
         (¬ (protectedKernelCode.CONFIG_BUILD_PROTECTED = true ∨
            protectedKernelCode.CONFIG_BUILD_KERNEL = true) ∧
            protectedKernelCode.CONFIG_SCHED_LPWORK = true))) := by
  decide

/-- C7, amended: for every configuration with `CONFIG_LIBC_AIO` set that is not
compiled as kernel code of a protected or kernel build, the header is accepted
if and only if `CONFIG_SCHED_WORKQUEUE` is set and, in a protected or kernel
build, `CONFIG_SCHED_USRWORK` is set, or, in a flat build, `CONFIG_SCHED_LPWORK`
is set; with `CONFIG_LIBC_AIO` not set, or in kernel code of a protected or
kernel build, the header is never rejected. -/
theorem workqueue_dependency_check (c : Config) :
    ((c.CONFIG_LIBC_AIO = true ∧
        ¬ ((c.CONFIG_BUILD_PROTECTED = true ∨ c.CONFIG_BUILD_KERNEL = true) ∧
            c.__KERNEL__ = true)) →
      (accepted c = true ↔
        (c.CONFIG_SCHED_WORKQUEUE = true ∧
          (((c.CONFIG_BUILD_PROTECTED = true ∨ c.CONFIG_BUILD_KERNEL = true) ∧
              c.CONFIG_SCHED_USRWORK = true) ∨
           (¬ (c.CONFIG_BUILD_PROTECTED = true ∨ c.CONFIG_BUILD_KERNEL = true) ∧
              c.CONFIG_SCHED_LPWORK = true))))) ∧
    ((c.CONFIG_LIBC_AIO = false ∨
        ((c.CONFIG_BUILD_PROTECTED = true ∨ c.CONFIG_BUILD_KERNEL = true) ∧
            c.__KERNEL__ = true)) →
      accepted c = true) := by
  obtain ⟨fp, fk, fw, fu, fl, _⟩ := kernelExclusion_frame c
  constructor
  · intro hen
    have hen2 : aioEnabled c = true := (aioEnabled_iff c).2 hen
    rw [accepted_iff, prerequisites_ok_iff, fp, fk, fw, fu, fl, hen2]
    simp
  · intro hdis
    have hen2 : aioEnabled c = false := by
      cases h : aioEnabled c
      · rfl
      · have := (aioEnabled_iff c).1 h
        rcases hdis with h1 | h1
        · rw [this.1] at h1; exact absurd h1 (by decide)
        · exact absurd h1 this.2
    exact (accepted_iff c).2 (Or.inl hen2)

/-- The amended C7 at concrete configurations: application code of a protected
build with the user-space work queue is accepted, application code of a
protected build without it is rejected, and kernel code of a protected build is
accepted without any work queue support. -/
theorem workqueue_dependency_check_witness :
    accepted protectedUser = true ∧
    accepted protectedUserNoUsrWork = false ∧
    accepted protectedKernelCode = true :=
  ⟨((workqueue_dependency_check protectedUser).1 (by decide)).2 (by decide),
   by
     cases h : accepted protectedUserNoUsrWork
     · rfl
     · exact absurd
         (((workqueue_dependency_check protectedUserNoUsrWork).1 (by decide)).1 h)
         (by decide),
   (workqueue_dependency_check protectedKernelCode).2 (by decide)⟩

/-- C8 fails as stated: kernel code of a flat build is not excluded. With
asynchronous I/O enabled and the prerequisites met the header exposes the
constants, the control block type and the prototypes; without work queue support
it raises the prerequisite error. -/
theorem flat_kernel_code_not_excluded :
    flatKernelCode.__KERNEL__ = true ∧
    aio_h flatKernelCode = .ok (includeGuard ::
      (standardDefinitions ++ typeDefinitions ++ prototypes flatKernelCode)) ∧
    (∀ n ∈ aioNames, exposes flatKernelCode n = true) ∧
    flatKernelCodeNoWorkQueue.__KERNEL__ = true ∧
    aio_h flatKernelCodeNoWorkQueue =
      .error "Asynchronous I/O requires CONFIG_SCHED_WORKQUEUE" :=
  ⟨rfl, rfl, by decide, rfl, rfl⟩

/-- C8, amended: for every configuration of a protected or kernel build in which
the header is compiled as kernel code (`__KERNEL__` defined), the header leaves
only its include guard behind: none of the AIO constants, the control block type
or the prototypes is exposed, whatever the value of `CONFIG_LIBC_AIO`, and no
prerequisite error is raised. -/
theorem kernel_code_excluded (c : Config)
    (hk : c.__KERNEL__ = true)
    (hb : c.CONFIG_BUILD_PROTECTED = true ∨ c.CONFIG_BUILD_KERNEL = true) :
    aio_h c = .ok [includeGuard] ∧
    accepted c = true ∧
    (∀ n ∈ aioNames, exposes c n = false) := by
  have hen : aioEnabled c = false := by
    cases h : aioEnabled c
    · rfl
    · exact absurd ⟨hb, hk⟩ ((aioEnabled_iff c).1 h).2
  have hh := aio_h_disabled c hen
  refine ⟨hh, (accepted_iff c).2 (Or.inl hen), ?_⟩
  unfold exposes
  rw [hh]
  decide

/-- The amended C8 at a concrete configuration: kernel code of a kernel build
with `CONFIG_LIBC_AIO` set. -/
theorem kernel_code_excluded_witness :
    aio_h kernelBuildKernelCode = .ok [includeGuard] ∧
    accepted kernelBuildKernelCode = true ∧
    (∀ n ∈ aioNames, exposes kernelBuildKernelCode n = false) :=
  kernel_code_excluded kernelBuildKernelCode (by decide) (by decide)

/-! ## Theorems: cancellation -/

end Aio
